import Mathlib

/-!
Shallow embedding of the wanderword repository's AI-provider dispatch layer,
its JSON-extraction step, the CLI-agent relay server routes, the mock backend
data, and the playback-index state updates of the App component.

Sources embedded:
- src/services/aiProvider.ts  (adapters, mock backend, dispatcher, App handlers)
- src/cli/etymology.ts        (callCliAgent, extractJson)
- server/api.ts               (checkCliInstalled, GET /api/cli-agents/check,
                               POST /api/cli-agent close handler)
- src/types/index.ts          (WordJourney data model)
-/

/-! ## JSON values and a model of JavaScript's JSON.parse

`JSON.parse` is modelled by a recursive-descent parser over the character
list of the input.  Numbers are kept as their raw lexeme (the claims never
inspect numeric magnitude, so no floating point is needed); strings are kept
with their escape sequences decoded (a `\u` escape naming a lone surrogate,
which Lean's `Char` cannot represent, decodes through `Char.ofNat`'s default;
parse success/failure is unaffected).
-/

inductive Json where
  | null : Json
  | bool : Bool → Json
  | num : String → Json
  | str : String → Json
  | arr : List Json → Json
  | obj : List (String × Json) → Json

/-- JSON whitespace accepted by `JSON.parse`: space, tab, line feed, carriage
return. -/
def isJsonWs (c : Char) : Bool :=
  c = ' ' || c = '\t' || c = '\n' || c = '\r'

def skipWs : List Char → List Char
  | [] => []
  | c :: cs => if isJsonWs c then skipWs cs else c :: cs

def hexVal (c : Char) : Option Nat :=
  if '0' ≤ c ∧ c ≤ '9' then some (c.toNat - '0'.toNat)
  else if 'a' ≤ c ∧ c ≤ 'f' then some (c.toNat - 'a'.toNat + 10)
  else if 'A' ≤ c ∧ c ≤ 'F' then some (c.toNat - 'A'.toNat + 10)
  else none

/-- Prepend a decoded character to the pending string-lexer result. -/
def consFst (d : Char) : Option (List Char × List Char) → Option (List Char × List Char)
  | some (out, r) => some (d :: out, r)
  | none => none

/-- Lex the body of a JSON string (the input starts just after the opening
quote); returns the decoded content and the input remaining after the closing
quote.  Mirrors `JSON.parse`: the only escapes are `\" \\ \/ \b \f \n \r \t`
and `\uXXXX`, and raw control characters below 0x20 are rejected. -/
def lexString : Nat → List Char → Option (List Char × List Char)
  | 0, _ => none
  | _ + 1, [] => none
  | fuel + 1, c :: cs =>
    if c = '"' then some ([], cs)
    else if c = '\\' then
      match cs with
      | [] => none
      | e :: cs2 =>
        if e = '"' then consFst '"' (lexString fuel cs2)
        else if e = '\\' then consFst '\\' (lexString fuel cs2)
        else if e = '/' then consFst '/' (lexString fuel cs2)
        else if e = 'b' then consFst (Char.ofNat 8) (lexString fuel cs2)
        else if e = 'f' then consFst (Char.ofNat 12) (lexString fuel cs2)
        else if e = 'n' then consFst '\n' (lexString fuel cs2)
        else if e = 'r' then consFst '\r' (lexString fuel cs2)
        else if e = 't' then consFst '\t' (lexString fuel cs2)
        else if e = 'u' then
          match cs2 with
          | h1 :: h2 :: h3 :: h4 :: cs3 =>
            match hexVal h1, hexVal h2, hexVal h3, hexVal h4 with
            | some a, some b, some c2, some d2 =>
              consFst (Char.ofNat (((a * 16 + b) * 16 + c2) * 16 + d2)) (lexString fuel cs3)
            | _, _, _, _ => none
          | _ => none
        else none
    else if c.toNat < 32 then none
    else consFst c (lexString fuel cs)

/-- Longest prefix of decimal digits. -/
def lexDigits : List Char → List Char × List Char
  | [] => ([], [])
  | c :: cs =>
    if c.isDigit then
      let (d, r) := lexDigits cs
      (c :: d, r)
    else ([], c :: cs)

/-- Integer part of a JSON number: `0`, or a nonzero digit followed by
digits. -/
def lexIntPart : List Char → Option (List Char × List Char)
  | [] => none
  | c :: cs =>
    if c = '0' then some ([c], cs)
    else if c.isDigit then
      let (d, r) := lexDigits cs
      some (c :: d, r)
    else none

/-- Optional fractional part: `.` followed by at least one digit. -/
def lexFrac : List Char → Option (List Char × List Char)
  | [] => some ([], [])
  | c :: cs =>
    if c = '.' then
      let (ds, r) := lexDigits cs
      if ds = [] then none else some ('.' :: ds, r)
    else some ([], c :: cs)

/-- Optional exponent part: `e` or `E`, optional sign, at least one digit. -/
def lexExp : List Char → Option (List Char × List Char)
  | [] => some ([], [])
  | c :: cs =>
    if c = 'e' ∨ c = 'E' then
      match cs with
      | [] => none
      | s :: cs2 =>
        if s = '+' ∨ s = '-' then
          let (ds, r) := lexDigits cs2
          if ds = [] then none else some (c :: s :: ds, r)
        else
          let (ds, r) := lexDigits cs
          if ds = [] then none else some (c :: ds, r)
    else some ([], c :: cs)

/-- Lex a JSON number, returning its full lexeme. -/
def lexNumber (l : List Char) : Option (List Char × List Char) :=
  let (neg, rest) :=
    match l with
    | '-' :: cs => (['-'], cs)
    | _ => (([] : List Char), l)
  match lexIntPart rest with
  | none => none
  | some (ip, r1) =>
    match lexFrac r1 with
    | none => none
    | some (fp, r2) =>
      match lexExp r2 with
      | none => none
      | some (ep, r3) => some (neg ++ ip ++ fp ++ ep, r3)

mutual

/-- Parse one JSON value; the input has already had leading whitespace
skipped.  Fuel bounds the recursion depth; `parseJson` supplies more fuel
than the input length, which is always sufficient since every recursive call
follows the consumption of at least one character. -/
def parseValue : Nat → List Char → Option (Json × List Char)
  | 0, _ => none
  | fuel + 1, l =>
    match l with
    | [] => none
    | c :: cs =>
      if c = '{' then
        match skipWs cs with
        | '}' :: rest => some (.obj [], rest)
        | l2 => (parseMembers fuel l2).map fun (ms, rest) => (.obj ms, rest)
      else if c = '[' then
        match skipWs cs with
        | ']' :: rest => some (.arr [], rest)
        | l2 => (parseElems fuel l2).map fun (vs, rest) => (.arr vs, rest)
      else if c = '"' then
        match lexString (cs.length + 1) cs with
        | some (content, rest) => some (.str (String.mk content), rest)
        | none => none
      else if c = 't' then
        match cs with
        | 'r' :: 'u' :: 'e' :: rest => some (.bool true, rest)
        | _ => none
      else if c = 'f' then
        match cs with
        | 'a' :: 'l' :: 's' :: 'e' :: rest => some (.bool false, rest)
        | _ => none
      else if c = 'n' then
        match cs with
        | 'u' :: 'l' :: 'l' :: rest => some (.null, rest)
        | _ => none
      else
        match lexNumber (c :: cs) with
        | some (lex, rest) => some (.num (String.mk lex), rest)
        | none => none

/-- Parse the comma-separated elements of a non-empty array, consuming the
closing bracket. -/
def parseElems : Nat → List Char → Option (List Json × List Char)
  | 0, _ => none
  | fuel + 1, l =>
    match parseValue fuel l with
    | none => none
    | some (v, rest) =>
      match skipWs rest with
      | ',' :: rest2 =>
        match parseElems fuel (skipWs rest2) with
        | some (vs, rest3) => some (v :: vs, rest3)
        | none => none
      | ']' :: rest2 => some ([v], rest2)
      | _ => none

/-- Parse the comma-separated members of a non-empty object, consuming the
closing brace. -/
def parseMembers : Nat → List Char → Option (List (String × Json) × List Char)
  | 0, _ => none
  | fuel + 1, l =>
    match l with
    | '"' :: cs =>
      match lexString (cs.length + 1) cs with
      | none => none
      | some (key, rest) =>
        match skipWs rest with
        | ':' :: rest2 =>
          match parseValue fuel (skipWs rest2) with
          | none => none
          | some (v, rest3) =>
            match skipWs rest3 with
            | ',' :: rest4 =>
              match parseMembers fuel (skipWs rest4) with
              | some (ms, rest5) => some ((String.mk key, v) :: ms, rest5)
              | none => none
            | '}' :: rest4 => some ([(String.mk key, v)], rest4)
            | _ => none
        | _ => none
    | _ => none

end

/-- Model of `JSON.parse(s)`: parse one value surrounded by optional
whitespace; anything left over is a syntax error. -/
def parseJson (s : String) : Option Json :=
  match parseValue (s.length + 1) (skipWs s.data) with
  | some (v, rest) => if skipWs rest = [] then some v else none
  | none => none

/-! ## The extraction step

All four extraction sites (`extractJson` in src/cli/etymology.ts and the
inline code of the Anthropic, Ollama and CLI-agent adapters in
src/services/aiProvider.ts) run `text.match(/\x7b[\s\S]*\x7d/)` and
`JSON.parse` the match, differing only in the error message thrown when the
regex does not match.

The regex `/\x7b[\s\S]*\x7d/` matches (leftmost-longest) the substring from
the first opening brace of the text through the last closing brace of the
text, provided that closing brace lies after the opening one; otherwise no
brace later in the text can be followed by a closing brace either, and there
is no match. -/

/-- Suffix of the input starting at its first opening brace (empty if none). -/
def dropUntilOpen : List Char → List Char
  | [] => []
  | c :: cs => if c = '{' then c :: cs else dropUntilOpen cs

/-- Prefix of the input ending at its last closing brace (empty if none). -/
def takeToLastClose (l : List Char) : List Char :=
  (l.reverse.dropWhile fun c => c ≠ '}').reverse

/-- The substring matched by `/\x7b[\s\S]*\x7d/`, if any. -/
def matchBracesL (l : List Char) : Option (List Char) :=
  let t := dropUntilOpen l
  if t = [] then none
  else
    let r := takeToLastClose t
    if r = [] then none else some r

def matchBraces (s : String) : Option String :=
  (matchBracesL s.data).map String.mk

inductive ExtractError where
  | noValidJson (message : String)
  | parseFailure

/-- The shared extraction step: regex match, then `JSON.parse` on the match.
`message` is the error thrown when the regex finds nothing; a match that
fails to parse surfaces as the `SyntaxError` thrown by `JSON.parse`. -/
def extractJsonWith (message : String) (text : String) : Except ExtractError Json :=
  match matchBraces text with
  | none => .error (.noValidJson message)
  | some m =>
    match parseJson m with
    | some v => .ok v
    | none => .error .parseFailure

/-- `extractJson` of src/cli/etymology.ts. -/
def extractJson (text : String) : Except ExtractError Json :=
  extractJsonWith "No valid JSON found in response" text

/-- Response post-processing of `fetchWordJourneyAnthropic`. -/
def anthropicExtract (text : String) : Except ExtractError Json :=
  extractJsonWith "No valid JSON in Anthropic response" text

/-- Response post-processing of `fetchWordJourneyOllama`. -/
def ollamaExtract (text : String) : Except ExtractError Json :=
  extractJsonWith "No valid JSON in Ollama response" text

/-- Response post-processing of `fetchWordJourneyCLI` (applied to the
`output` field of the relay's JSON response). -/
def cliAgentExtract (output : String) : Except ExtractError Json :=
  extractJsonWith "No valid JSON in response" output

/-! ## Lemmas about the regex-match model -/

theorem dropUntilOpen_append (l1 l2 : List Char) (h : '{' ∉ l1) :
    dropUntilOpen (l1 ++ l2) = dropUntilOpen l2 := by
  induction l1 with
  | nil => rfl
  | cons x xs ih =>
    simp only [List.mem_cons, not_or] at h
    rw [List.cons_append]
    simp only [dropUntilOpen]
    rw [if_neg fun he => h.1 he.symm]
    exact ih h.2

theorem dropWhile_append_of_pred {α : Type} (p : α → Bool) (l1 l2 : List α)
    (h : ∀ x ∈ l1, p x) : List.dropWhile p (l1 ++ l2) = List.dropWhile p l2 := by
  induction l1 with
  | nil => rfl
  | cons x xs ih =>
    rw [List.cons_append, List.dropWhile_cons]
    simp only [h x (by simp), if_true]
    exact ih fun y hy => h y (by simp [hy])

theorem matchBracesL_eq_none (l : List Char)
    (h : ¬ ∃ a b c : List Char, l = a ++ '{' :: (b ++ '}' :: c)) :
    matchBracesL l = none := by
  induction l with
  | nil => rfl
  | cons x xs ih =>
    by_cases hx : x = '{'
    · subst hx
      have hmem : '}' ∉ xs := by
        intro hmem
        obtain ⟨b, c, hbc⟩ := List.append_of_mem hmem
        exact h ⟨[], b, c, by simp [hbc]⟩
      have htake : takeToLastClose ('{' :: xs) = [] := by
        unfold takeToLastClose
        have hall : List.dropWhile (fun c => decide (c ≠ '}')) (('{' :: xs).reverse) = [] := by
          rw [List.dropWhile_eq_nil_iff]
          intro y hy
          simp only [List.mem_reverse, List.mem_cons] at hy
          rcases hy with hy | hy
          · simp [hy]
          · have : y ≠ '}' := fun he => hmem (he ▸ hy)
            simp [this]
        rw [hall]; rfl
      simp [matchBracesL, dropUntilOpen, htake]
    · have hdrop : dropUntilOpen (x :: xs) = dropUntilOpen xs := by
        simp [dropUntilOpen, hx]
      have hstep : matchBracesL (x :: xs) = matchBracesL xs := by
        simp only [matchBracesL, hdrop]
      rw [hstep]
      apply ih
      rintro ⟨a, b, c, habc⟩
      exact h ⟨x :: a, b, c, by simp [habc]⟩

theorem matchBracesL_clean_wrap (p j s : List Char) (cs t : List Char)
    (hp : '{' ∉ p) (hs : '}' ∉ s)
    (hj : j = '{' :: cs) (hrev : j.reverse = '}' :: t) :
    matchBracesL (p ++ (j ++ s)) = some j := by
  have hdrop : dropUntilOpen (p ++ (j ++ s)) = j ++ s := by
    rw [dropUntilOpen_append p (j ++ s) hp, hj, List.cons_append]
    simp [dropUntilOpen]
  have htake : takeToLastClose (j ++ s) = j := by
    unfold takeToLastClose
    rw [List.reverse_append]
    rw [dropWhile_append_of_pred _ s.reverse j.reverse
        (fun x hx => by
          have : x ≠ '}' := fun he => hs (he ▸ (List.mem_reverse.mp hx))
          simp [this])]
    rw [hrev]
    have hstep : List.dropWhile (fun c => decide (c ≠ '}')) ('}' :: t) = '}' :: t := by
      simp [List.dropWhile_cons]
    rw [hstep, ← hrev, List.reverse_reverse]
  have hne : j ++ s ≠ [] := by rw [hj]; simp
  have hjne : j ≠ [] := by rw [hj]; simp
  simp only [matchBracesL, hdrop, if_neg hne, htake, if_neg hjne]

/-- Helper to discharge the no-brace-pair hypothesis on concrete inputs with
no opening brace at all. -/
theorem no_brace_pair_of_no_open (l : List Char) (h : '{' ∉ l) :
    ¬ ∃ a b c : List Char, l = a ++ '{' :: (b ++ '}' :: c) := by
  rintro ⟨a, b, c, rfl⟩
  exact h (by simp)

/-! ## Claims C1 and C5: the extraction step -/

/-- Claim C1 (amended): if a raw textual response is a JSON object (a string
that `JSON.parse` accepts, delimited by braces) wrapped in surrounding text
whose prefix contains no opening brace and whose suffix contains no closing
brace, then the extraction step shared by `extractJson` and the
Anthropic/Ollama/CLI-agent adapters succeeds and returns exactly that
object.  (The original claim, for arbitrary surrounding text, fails: the
regex is greedy, see the counterexample.) -/
theorem extract_recovers_clean_wrap (msg p j s : String) (v : Json)
    (hp : '{' ∉ p.data) (hs : '}' ∉ s.data)
    (hhead : j.data.head? = some '{') (hlast : j.data.getLast? = some '}')
    (hparse : parseJson j = some v) :
    extractJsonWith msg (p ++ j ++ s) = .ok v := by
  obtain ⟨cs, hj⟩ : ∃ cs, j.data = '{' :: cs := by
    cases hjd : j.data with
    | nil => rw [hjd] at hhead; cases hhead
    | cons c cs =>
      rw [hjd] at hhead
      simp only [List.head?_cons, Option.some.injEq] at hhead
      exact ⟨cs, by rw [hhead]⟩
  obtain ⟨t, hrev⟩ : ∃ t, j.data.reverse = '}' :: t := by
    cases hr : j.data.reverse with
    | nil =>
      have : j.data = [] := by simpa using congrArg List.reverse hr
      rw [this] at hlast; cases hlast
    | cons c t =>
      have h1 : some c = some '}' := by
        rw [← hlast, ← List.head?_reverse, hr]; rfl
      injection h1 with h1
      exact ⟨t, by rw [h1]⟩
  have hdata : (p ++ j ++ s).data = p.data ++ (j.data ++ s.data) := by
    simp [String.data_append, List.append_assoc]
  have hmatch : matchBraces (p ++ j ++ s) = some j := by
    unfold matchBraces
    rw [hdata, matchBracesL_clean_wrap p.data j.data s.data cs t hp hs hj hrev]
    rfl
  simp only [extractJsonWith, hmatch, hparse]

/-- Witness for C1's amended theorem at a concrete prose-wrapped response. -/
theorem extract_recovers_clean_wrap_witness :
    extractJsonWith "No valid JSON in response"
        ("Sure! Here is the JSON you asked for:\n" ++ "\x7b\"word\": \"tea\"\x7d" ++ "\nEnjoy.") =
      .ok (Json.obj [("word", Json.str "tea")]) :=
  extract_recovers_clean_wrap "No valid JSON in response"
    "Sure! Here is the JSON you asked for:\n" "\x7b\"word\": \"tea\"\x7d" "\nEnjoy."
    (Json.obj [("word", Json.str "tea")])
    (by decide) (by decide) (by decide) (by decide) (by rfl)

/-- Counterexample to claim C1 as stated: this response contains the
well-formed JSON object between its official braces, wrapped in prose, but
the prose itself mentions braces, so the greedy regex match spans from the
first prose brace to the end and `JSON.parse` fails; extraction does not
return the object. -/
theorem extract_greedy_counterexample :
    ("Use \x7bcurly\x7d braces: \x7b\"a\": 1\x7d" =
        "Use \x7bcurly\x7d braces: " ++ "\x7b\"a\": 1\x7d" ++ "") ∧
    parseJson "\x7b\"a\": 1\x7d" = some (Json.obj [("a", Json.num "1")]) ∧
    extractJson "Use \x7bcurly\x7d braces: \x7b\"a\": 1\x7d" = .error .parseFailure :=
  ⟨rfl, rfl, rfl⟩

/-- Claim C5: a raw textual response containing no JSON object (no substring
that starts with an opening brace and ends with a closing brace) makes the
extraction step fail with the no-valid-JSON error of the calling site, and
with no other outcome. -/
theorem extract_no_object_fails (msg text : String)
    (h : ¬ ∃ a b c : List Char, text.data = a ++ '{' :: (b ++ '}' :: c)) :
    extractJsonWith msg text = .error (.noValidJson msg) := by
  unfold extractJsonWith matchBraces
  rw [matchBracesL_eq_none text.data h]
  rfl

/-- Witness for C5 at a concrete braceless response, through the CLI tool's
`extractJson`. -/
theorem extract_no_object_fails_witness :
    extractJson "The model returned no structured data at all" =
      .error (.noValidJson "No valid JSON found in response") :=
  extract_no_object_fails "No valid JSON found in response"
    "The model returned no structured data at all"
    (no_brace_pair_of_no_open _ (by decide))

/-! ## The WordJourney data model (src/types/index.ts)

Coordinates are exact decimal literals in the source; they are embedded as
rationals, stored as the `[longitude, latitude]` pair of the source. -/

inductive RouteType where
  | land
  | sea
deriving DecidableEq

structure Location where
  name : String
  countryCode : String
  coordinates : ℚ × ℚ
deriving DecidableEq

structure Origin where
  word : String
  language : String
  meaning : String
  location : Location
  century : String
deriving DecidableEq

structure JourneyStep where
  order : Int
  word : String
  language : String
  pronunciation : Option String := none
  location : Location
  century : String
  routeType : RouteType
  notes : String
deriving DecidableEq

structure WordJourney where
  word : String
  currentMeaning : String
  origin : Origin
  journey : List JourneyStep
  narrative : String
  routeSummary : String
  funFact : Option String := none
deriving DecidableEq

/-! ## Mock backend (fetchWordJourneyMock) -/

/-- The `coffee` entry of the mock data record. -/
def coffeeJourney : WordJourney :=
  { word := "coffee"
    currentMeaning := "A dark brown stimulating drink made from roasted and ground seeds of the coffee plant"
    origin :=
      { word := "qahwah"
        language := "Arabic"
        meaning := "Wine; a stimulating dark beverage"
        location := { name := "Mokha, Yemen", countryCode := "YE", coordinates := (43.25, 13.32) }
        century := "15th Century" }
    journey :=
      [ { order := 1, word := "kahve", language := "Ottoman Turkish"
          location := { name := "Istanbul, Turkey", countryCode := "TR", coordinates := (28.98, 41.01) }
          century := "16th Century", routeType := .land
          notes := "Spread through Ottoman Empire trade routes" }
      , { order := 2, word := "caffè", language := "Italian"
          location := { name := "Venice, Italy", countryCode := "IT", coordinates := (12.34, 45.44) }
          century := "17th Century", routeType := .sea
          notes := "Venetian merchants brought coffee from Ottoman ports" }
      , { order := 3, word := "café", language := "French"
          location := { name := "Paris, France", countryCode := "FR", coordinates := (2.35, 48.86) }
          century := "17th Century", routeType := .land
          notes := "French coffeehouses became cultural centers" }
      , { order := 4, word := "coffee", language := "English"
          location := { name := "London, England", countryCode := "GB", coordinates := (-0.12, 51.51) }
          century := "17th Century", routeType := .sea
          notes := "First London coffeehouse opened 1652" } ]
    narrative := "The word \x27coffee\x27 embarks on a rich linguistic and geographic journey..."
    routeSummary := "MARITIME_TRADE"
    funFact := some "The first European coffeehouse opened in Venice in 1629." }

/-- The `tea` entry of the mock data record. -/
def teaJourney : WordJourney :=
  { word := "tea"
    currentMeaning := "An aromatic beverage prepared by pouring hot water over cured leaves of the Camellia sinensis plant"
    origin :=
      { word := "茶 (chá)"
        language := "Chinese (Mandarin)"
        meaning := "The tea plant and beverage"
        location := { name := "Fujian Province, China", countryCode := "CN", coordinates := (118.0, 26.0) }
        century := "3rd Century BCE" }
    journey :=
      [ { order := 1, word := "tê", language := "Min Chinese (Hokkien)"
          pronunciation := some "te"
          location := { name := "Xiamen, China", countryCode := "CN", coordinates := (118.08, 24.48) }
          century := "16th Century", routeType := .land
          notes := "Maritime trade variant pronunciation" }
      , { order := 2, word := "thee", language := "Dutch"
          location := { name := "Amsterdam, Netherlands", countryCode := "NL", coordinates := (4.9, 52.37) }
          century := "17th Century", routeType := .sea
          notes := "Dutch East India Company brought tea from Fujian" }
      , { order := 3, word := "tea", language := "English"
          location := { name := "London, England", countryCode := "GB", coordinates := (-0.12, 51.51) }
          century := "17th Century", routeType := .sea
          notes := "Borrowed from Dutch traders" } ]
    narrative := "The word \x27tea\x27 follows the maritime Silk Road from China to Europe..."
    routeSummary := "MARITIME_SILK_ROAD"
    funFact := some "\x27Tea\x27-like words indicate maritime trade, \x27cha\x27-like words indicate overland Silk Road trade." }

/-- `word.toLowerCase()`, as the character-wise lowercase map (the ASCII
case; identical to the JavaScript method on the ASCII inputs involved
here). -/
def toLowerCase (s : String) : String :=
  String.mk (s.data.map Char.toLower)

/-- The property names a plain JavaScript object literal inherits from
`Object.prototype`, every one bound to a truthy value (a function, or
`Object.prototype` itself for the `__proto__` accessor).  A bracket lookup
`mockData[k]` that misses the own keys still finds these. -/
def objectPrototypeKeys : List String :=
  ["constructor", "hasOwnProperty", "isPrototypeOf", "propertyIsEnumerable",
   "toLocaleString", "toString", "valueOf", "__defineGetter__",
   "__defineSetter__", "__lookupGetter__", "__lookupSetter__", "__proto__"]

/-- What `fetchWordJourneyMock` can return without throwing: one of the two
genuine `WordJourney` entries of the object literal, or a truthy value
inherited from `Object.prototype` (which is not a `WordJourney` at all, in
spite of the function's declared type). -/
inductive MockValue where
  | journey (j : WordJourney)
  | inherited (propertyName : String)
deriving DecidableEq

/-- `fetchWordJourneyMock`: lowercase the word, look it up in the two-entry
mock record via `mockData[normalizedWord]`, throw when the lookup is falsy.
The JavaScript bracket lookup consults the prototype chain, so besides the
own keys `coffee` and `tea` it also finds the truthy `Object.prototype`
properties, which the truthiness guard then returns as if they were mock
data.  Since `normalizedWord` is the output of `toLowerCase`, the reachable
inherited names are exactly the all-lowercase ones, `constructor` and
`__proto__`.  (The 1500 ms artificial delay of the source has no observable
effect on the returned value and is not modelled.) -/
def fetchWordJourneyMock (word : String) : Except String MockValue :=
  let normalizedWord := toLowerCase word
  if normalizedWord = "coffee" then .ok (.journey coffeeJourney)
  else if normalizedWord = "tea" then .ok (.journey teaJourney)
  else if normalizedWord ∈ objectPrototypeKeys then .ok (.inherited normalizedWord)
  else .error ("Mock data not available for \"" ++ word ++ "\". Use a real AI provider or try: coffee, tea")

/-! ## The dispatcher (fetchWordJourney) -/

structure AIProviderConfig where
  provider : String
  apiKey : Option String := none
  baseUrl : Option String := none
  model : Option String := none
  timeout : Option Nat := none
  responseLanguage : Option String := none
deriving DecidableEq

/-- What the dispatcher does before any outbound call: either throw a local
error immediately, or hand off to exactly one backend adapter (the
constructor records which adapter is invoked and with which arguments). -/
inductive DispatchAction where
  | immediateError (message : String)
  | callGeminiAPI (word apiKey : String) (language : Option String)
  | callOpenAI (word apiKey : String) (language : Option String)
  | callAnthropic (word apiKey : String) (language : Option String)
  | callOllama (word baseUrl modelName : String) (language : Option String)
  | callCLI (word provider : String) (timeout : Nat) (language : Option String)
  | callMock (word : String)
deriving DecidableEq

/-- JavaScript truthiness of the optional `apiKey` string: `!apiKey` holds
for an absent key and for the empty string. -/
def isFalsyKey : Option String → Bool
  | none => true
  | some s => s = ""

/-- JavaScript `a || b` on an optional string: the default applies when the
option is absent or empty. -/
def orDefault (o : Option String) (d : String) : String :=
  match o with
  | none => d
  | some s => if s = "" then d else s

/-- JavaScript `timeout || 60`: zero is falsy and also falls back to 60. -/
def timeoutOrDefault (o : Option Nat) : Nat :=
  match o with
  | none => 60
  | some n => if n = 0 then 60 else n

/-- `fetchWordJourney`: the string-keyed switch over the backend identifier.
The `switch` statement is rendered as the equivalent equality chain. -/
def fetchWordJourney (word : String) (config : AIProviderConfig) : DispatchAction :=
  let provider := config.provider
  if provider = "gemini-api" then
    if isFalsyKey config.apiKey then .immediateError "API key required for Gemini API"
    else .callGeminiAPI word (config.apiKey.getD "") config.responseLanguage
  else if provider = "openai-api" then
    if isFalsyKey config.apiKey then .immediateError "API key required for OpenAI API"
    else .callOpenAI word (config.apiKey.getD "") config.responseLanguage
  else if provider = "anthropic-api" then
    if isFalsyKey config.apiKey then .immediateError "API key required for Anthropic API"
    else .callAnthropic word (config.apiKey.getD "") config.responseLanguage
  else if provider = "ollama" then
    .callOllama word (orDefault config.baseUrl "http://localhost:11434")
      (orDefault config.model "llama3") config.responseLanguage
  else if provider = "gemini" ∨ provider = "claude" ∨ provider = "codex" ∨ provider = "qwen" then
    .callCLI word provider (timeoutOrDefault config.timeout) config.responseLanguage
  else
    .callMock word

/-- The eight backend identifiers the switch handles explicitly. -/
def knownProviders : List String :=
  ["gemini-api", "openai-api", "anthropic-api", "ollama", "gemini", "claude", "codex", "qwen"]

/-! ## Claims C3, C7, C10: dispatcher and mock backend -/

/-- Claim C3: for each backend identifier requiring a credential
(`gemini-api`, `openai-api`, `anthropic-api`), dispatching with an absent
`apiKey` throws the missing-credential error immediately; by construction of
`DispatchAction`, the `immediateError` outcome performs no network request or
process spawn. -/
theorem dispatch_missing_credential (word : String) (cfg : AIProviderConfig)
    (hp : cfg.provider = "gemini-api" ∨ cfg.provider = "openai-api" ∨
          cfg.provider = "anthropic-api")
    (hk : cfg.apiKey = none) :
    fetchWordJourney word cfg = .immediateError "API key required for Gemini API" ∨
    fetchWordJourney word cfg = .immediateError "API key required for OpenAI API" ∨
    fetchWordJourney word cfg = .immediateError "API key required for Anthropic API" := by
  rcases hp with hp | hp | hp
  · exact Or.inl (by simp [fetchWordJourney, hp, hk, isFalsyKey])
  · exact Or.inr (Or.inl (by simp [fetchWordJourney, hp, hk, isFalsyKey]))
  · exact Or.inr (Or.inr (by simp [fetchWordJourney, hp, hk, isFalsyKey]))

/-- Witness for C3 at a concrete keyless configuration. -/
theorem dispatch_missing_credential_witness :
    fetchWordJourney "coffee" ⟨"anthropic-api", none, none, none, none, none⟩ =
        .immediateError "API key required for Gemini API" ∨
    fetchWordJourney "coffee" ⟨"anthropic-api", none, none, none, none, none⟩ =
        .immediateError "API key required for OpenAI API" ∨
    fetchWordJourney "coffee" ⟨"anthropic-api", none, none, none, none, none⟩ =
        .immediateError "API key required for Anthropic API" :=
  dispatch_missing_credential "coffee" ⟨"anthropic-api", none, none, none, none, none⟩
    (Or.inr (Or.inr rfl)) rfl

/-- Claim C7: the mock backend on "coffee" returns the coffee journey, whose
origin is Mokha, Yemen (country code YE, 15th Century) and whose journey has
exactly four waypoints ordered 1 through 4, the last being London, England
(GB) in the 17th Century with a sea route. -/
theorem mock_coffee_journey :
    fetchWordJourneyMock "coffee" = .ok (.journey coffeeJourney) ∧
    coffeeJourney.origin.location.name = "Mokha, Yemen" ∧
    coffeeJourney.origin.location.countryCode = "YE" ∧
    coffeeJourney.origin.century = "15th Century" ∧
    coffeeJourney.journey.length = 4 ∧
    coffeeJourney.journey.map JourneyStep.order = [1, 2, 3, 4] ∧
    (coffeeJourney.journey.getLast?).map (fun st =>
        (st.location.name, st.location.countryCode, st.century, st.routeType)) =
      some ("London, England", "GB", "17th Century", RouteType.sea) :=
  ⟨rfl, rfl, rfl, rfl, rfl, rfl, rfl⟩

/-- Counterexample to claim C10 as stated: "Constructor" lowercases to
"constructor", a word other than "coffee" and "tea", yet the mock lookup
resolves it through the prototype chain to the truthy inherited
`Object.prototype.constructor` and returns it — no error is thrown.  The
word "__proto__" behaves the same way. -/
theorem mock_prototype_counterexample :
    toLowerCase "Constructor" ≠ "coffee" ∧
    toLowerCase "Constructor" ≠ "tea" ∧
    fetchWordJourneyMock "Constructor" = .ok (.inherited "constructor") ∧
    fetchWordJourneyMock "__proto__" = .ok (.inherited "__proto__") :=
  ⟨by decide, by decide, rfl, rfl⟩

/-- Claim C10 (amended): every provider identifier outside the eight known
backends falls through to the mock backend; the mock lowercases the word, so
"Coffee" and "COFFEE" return the coffee result; and any word whose lowercase
form is neither "coffee" nor "tea" yields the mock error, provided the
lowercase form is not a property name inherited from `Object.prototype` —
for those (reachably, "constructor" and "__proto__") the prototype-chain
lookup returns the inherited truthy value instead of throwing (see the
counterexample). -/
theorem dispatch_default_and_mock_case (word : String) (cfg : AIProviderConfig)
    (hp : cfg.provider ∉ knownProviders) :
    fetchWordJourney word cfg = .callMock word ∧
    fetchWordJourneyMock "Coffee" = .ok (.journey coffeeJourney) ∧
    fetchWordJourneyMock "COFFEE" = .ok (.journey coffeeJourney) ∧
    (toLowerCase word ≠ "coffee" → toLowerCase word ≠ "tea" →
      toLowerCase word ∉ objectPrototypeKeys →
      fetchWordJourneyMock word =
        .error ("Mock data not available for \"" ++ word ++
          "\". Use a real AI provider or try: coffee, tea")) := by
  refine ⟨?_, rfl, rfl, fun h1 h2 h3 => ?_⟩
  · simp only [knownProviders, List.mem_cons, List.not_mem_nil, or_false, not_or] at hp
    obtain ⟨h1, h2, h3, h4, h5, h6, h7, h8⟩ := hp
    simp [fetchWordJourney, h1, h2, h3, h4, h5, h6, h7, h8]
  · simp [fetchWordJourneyMock, h1, h2, h3]

/-- Witness for C10's amended theorem at the unknown provider "mistral" and
the word "Pizza". -/
theorem dispatch_default_and_mock_case_witness :
    fetchWordJourney "Pizza" ⟨"mistral", none, none, none, none, none⟩ = .callMock "Pizza" ∧
    fetchWordJourneyMock "Coffee" = .ok (.journey coffeeJourney) ∧
    fetchWordJourneyMock "COFFEE" = .ok (.journey coffeeJourney) ∧
    (toLowerCase "Pizza" ≠ "coffee" → toLowerCase "Pizza" ≠ "tea" →
      toLowerCase "Pizza" ∉ objectPrototypeKeys →
      fetchWordJourneyMock "Pizza" =
        .error ("Mock data not available for \"" ++ "Pizza" ++
          "\". Use a real AI provider or try: coffee, tea")) :=
  dispatch_default_and_mock_case "Pizza" ⟨"mistral", none, none, none, none, none⟩ (by decide)

/-! ## Claim C6: waypoint ordering of adapter results -/

/-- The `order` fields found along `result.journey[*].order` of a parsed
response, when the response has that shape. -/
def Json.lookupKey : List (String × Json) → String → Option Json
  | [], _ => none
  | (k, v) :: rest, key => if k = key then some v else Json.lookupKey rest key

def journeyOrders : Json → Option (List Json)
  | .obj fields =>
    match Json.lookupKey fields "journey" with
    | some (.arr items) =>
      some (items.map fun item =>
        match item with
        | .obj f2 => (Json.lookupKey f2 "order").getD .null
        | _ => .null)
    | _ => none
  | _ => none

/-- The ordering property claimed by the spec: orders are exactly 1, 2, ...
up to the number of waypoints. -/
def ordersStartAtOne (orders : List Json) : Prop :=
  orders = (List.range orders.length).map fun i => Json.num (toString (i + 1))

/-- Counterexample to claim C6 as stated: the CLI-agent adapter passes any
parsed JSON through without validating it, so a relay output whose single
waypoint carries order 2 becomes a Result whose journey orders do not start
at 1. -/
theorem adapter_orders_counterexample :
    cliAgentExtract "\x7b\"journey\":[\x7b\"order\":2\x7d]\x7d" =
      .ok (Json.obj [("journey", Json.arr [Json.obj [("order", Json.num "2")]])]) ∧
    journeyOrders (Json.obj [("journey", Json.arr [Json.obj [("order", Json.num "2")]])]) =
      some [Json.num "2"] ∧
    ¬ ordersStartAtOne [Json.num "2"] := by
  refine ⟨rfl, rfl, fun h => ?_⟩
  rw [ordersStartAtOne] at h
  injection h with h1 h2
  injection h1 with h1
  exact absurd h1 (by decide)

/-- Claim C6 (amended): the adapters that parse free-form model output
perform no validation of the journey orders (see the counterexample); the
ordering invariant does hold for every genuine `WordJourney` the mock
backend returns (the coffee and tea entries): its waypoint orders are
exactly 1, 2, ..., n.  Mock lookups that resolve through the prototype
chain return inherited non-journey values, which carry no waypoints at
all. -/
theorem mock_orders_start_at_one (w : String) (r : WordJourney)
    (h : fetchWordJourneyMock w = .ok (.journey r)) :
    r.journey.map JourneyStep.order =
      (List.range r.journey.length).map (fun i => (i : Int) + 1) := by
  simp only [fetchWordJourneyMock] at h
  split at h
  · injection h with h; injection h with h; subst h; decide
  · split at h
    · injection h with h; injection h with h; subst h; decide
    · split at h
      · injection h with h; exact MockValue.noConfusion h
      · cases h

/-- Witness for C6's amended theorem at the word "tea". -/
theorem mock_orders_start_at_one_witness :
    teaJourney.journey.map JourneyStep.order =
      (List.range teaJourney.journey.length).map (fun i => (i : Int) + 1) :=
  mock_orders_start_at_one "tea" teaJourney rfl

/-! ## The relay server (server/api.ts) -/

/-- Outcome of `execSync('which ' + name)`: either a normal exit or a thrown
error (non-zero exit). -/
def checkCliInstalled (whichOutcome : String → Except Unit Unit) (name : String) : Bool :=
  match whichOutcome name with
  | .ok _ => true
  | .error _ => false

/-- The four CLI agents the relay knows about. -/
def CLI_AGENTS : List String := ["gemini", "claude", "codex", "qwen"]

/-- The GET /api/cli-agents/check route: status 200 and one
`(name, installed)` entry per agent, for any host state. -/
def cliAgentsCheckRoute (whichOutcome : String → Except Unit Unit) :
    Nat × List (String × Bool) :=
  (200, CLI_AGENTS.map fun name => (name, checkCliInstalled whichOutcome name))

/-- An HTTP response written by the POST /api/cli-agent handler: status code,
optional `error` field, `output` field. -/
structure RelayResponse where
  status : Nat
  error : Option String
  output : String
deriving DecidableEq

/-- `${code}` in the template literal of the 500 body; `code` is `null` when
the subprocess was killed by a signal (e.g. the spawn timeout). -/
def exitCodeString : Option Int → String
  | none => "null"
  | some n => toString n

/-- The `close` handler of the spawned subprocess in POST /api/cli-agent:
respond 200 with the captured output when the exit code is 0 or any stdout
was captured (`output || errorOutput` falls back to stderr when stdout is
empty); otherwise respond 500 with the exit-code message and the stderr
text. -/
def closeHandler (code : Option Int) (output errorOutput : String) : RelayResponse :=
  if code = some 0 ∨ output.length > 0 then
    { status := 200, error := none
      output := if output = "" then errorOutput else output }
  else
    { status := 500
      error := some ("Process exited with code " ++ exitCodeString code)
      output := errorOutput }

/-! ## The CLI tool's callCliAgent (src/cli/etymology.ts) -/

/-- Outcome of the `execSync` call inside `callCliAgent`: normal completion
with the captured stdout, or a thrown error (non-zero exit, or the subprocess
aborted by the wall-clock timeout) carrying whatever stdout was captured
before the abort. -/
inductive ExecOutcome where
  | completed (stdout : String)
  | threw (timedOut : Bool) (stdout : String)
deriving DecidableEq

/-- The try/catch around `execSync` in `callCliAgent`: on an error whose
`stdout` is truthy (non-empty), return that partial output; otherwise rethrow
the error. -/
def callCliAgent (outcome : ExecOutcome) : Except ExecOutcome String :=
  match outcome with
  | .completed out => .ok out
  | .threw t out => if out = "" then .error (.threw t out) else .ok out

/-! ## Claims C2, C4, C8 -/

/-- Counterexample to claim C2 as stated: a subprocess that exits with code 1
after writing to stdout makes the relay respond 200 with that output, not an
error. -/
theorem relay_nonzero_exit_counterexample :
    closeHandler (some 1) "partial model output" "boom from stderr" =
      { status := 200, error := none, output := "partial model output" } := rfl

/-- Claim C2 (amended): when the subprocess terminates with a non-zero (or
null) exit status and produced no stdout, the relay responds 500 with the
exit-code message, carrying the stderr text; with captured stdout it responds
200 instead. -/
theorem relay_nonzero_exit_no_output (code : Option Int) (errorOutput : String)
    (h : code ≠ some 0) :
    closeHandler code "" errorOutput =
      { status := 500
        error := some ("Process exited with code " ++ exitCodeString code)
        output := errorOutput } := by
  unfold closeHandler
  rw [if_neg]
  simp [h]

/-- Witness for C2's amended theorem at exit code 1. -/
theorem relay_nonzero_exit_no_output_witness :
    closeHandler (some 1) "" "agent crashed" =
      { status := 500
        error := some ("Process exited with code " ++ exitCodeString (some 1))
        output := "agent crashed" } :=
  relay_nonzero_exit_no_output (some 1) "agent crashed" (by decide)

/-- Counterexample to claim C4 as stated: when the subprocess is aborted on
timeout after writing partial output, `callCliAgent` returns that partial
output (and the relay's close handler, invoked with the null exit code of a
signal-killed subprocess, likewise salvages it with a 200 response). -/
theorem timeout_salvages_partial_output :
    callCliAgent (.threw true "partial \x7bjson\x7d") = .ok "partial \x7bjson\x7d" ∧
    closeHandler none "partial \x7bjson\x7d" "" =
      { status := 200, error := none, output := "partial \x7bjson\x7d" } :=
  ⟨rfl, rfl⟩

/-- Claim C4 (amended): an aborted `callCliAgent` invocation fails exactly
when the subprocess produced no stdout before the abort; when partial stdout
exists it is returned, i.e. the partial result IS salvaged. -/
theorem callCliAgent_abort_behavior (timedOut : Bool) (out : String) :
    (callCliAgent (.threw timedOut out) = .error (.threw timedOut out) ↔ out = "") ∧
    (callCliAgent (.threw timedOut out) = .ok out ↔ out ≠ "") := by
  by_cases h : out = ""
  · simp [callCliAgent, h]
  · simp [callCliAgent, h]

/-- Claim C8: the relay's availability check is a total function: for every
host state it responds 200 with an entry for each of the four CLI agents, the
`installed` flag mirroring the presence check, and a failing presence check
reports `installed := false` rather than throwing. -/
theorem cli_agents_check_total (whichOutcome : String → Except Unit Unit) :
    (cliAgentsCheckRoute whichOutcome).1 = 200 ∧
    (cliAgentsCheckRoute whichOutcome).2 =
      CLI_AGENTS.map (fun n => (n, checkCliInstalled whichOutcome n)) ∧
    (cliAgentsCheckRoute whichOutcome).2.map Prod.fst =
      ["gemini", "claude", "codex", "qwen"] ∧
    ∀ n, whichOutcome n = .error () → checkCliInstalled whichOutcome n = false := by
  refine ⟨rfl, rfl, rfl, fun n hn => ?_⟩
  simp [checkCliInstalled, hn]

/-! ## Claim C9: playback index bounds (App component) -/

/-- `handleNext` with a loaded journey of `len` waypoints: clamp the
increment at the last waypoint index. -/
def handleNext (len : Nat) (idx : Int) : Int :=
  min (idx + 1) ((len : Int) - 1)

/-- `handlePrev`: clamp the decrement at -1. -/
def handlePrev (idx : Int) : Int :=
  max (idx - 1) (-1)

/-- `handleReset`: back to -1. -/
def handleReset : Int := -1

inductive PlaybackOp where
  | next
  | prev
  | reset
deriving DecidableEq

def applyOp (len : Nat) (idx : Int) : PlaybackOp → Int
  | .next => handleNext len idx
  | .prev => handlePrev idx
  | .reset => handleReset

def applyOps (len : Nat) (idx : Int) : List PlaybackOp → Int
  | [] => idx
  | op :: ops => applyOps len (applyOp len idx op) ops

theorem applyOp_bounds (len : Nat) (idx : Int) (op : PlaybackOp)
    (h1 : -1 ≤ idx) (h2 : idx ≤ (len : Int) - 1) :
    -1 ≤ applyOp len idx op ∧ applyOp len idx op ≤ (len : Int) - 1 := by
  cases op with
  | next => exact ⟨le_min (by omega) (by omega), min_le_right _ _⟩
  | prev => exact ⟨le_max_right _ _, max_le (by omega) (by omega)⟩
  | reset => exact ⟨le_refl _, show (-1 : Int) ≤ (len : Int) - 1 by omega⟩

theorem applyOps_bounds (len : Nat) (ops : List PlaybackOp) (idx : Int)
    (h1 : -1 ≤ idx) (h2 : idx ≤ (len : Int) - 1) :
    -1 ≤ applyOps len idx ops ∧ applyOps len idx ops ≤ (len : Int) - 1 := by
  induction ops generalizing idx with
  | nil => exact ⟨h1, h2⟩
  | cons op ops ih =>
    obtain ⟨a, b⟩ := applyOp_bounds len idx op h1 h2
    exact ih _ a b

/-- Claim C9: starting from the reset value -1, any sequence of
next/prev/reset operations on a loaded journey of `len` waypoints keeps the
playback index inside [-1, len - 1]. -/
theorem playback_index_in_range (len : Nat) (ops : List PlaybackOp) :
    -1 ≤ applyOps len (-1) ops ∧ applyOps len (-1) ops ≤ (len : Int) - 1 :=
  applyOps_bounds len ops (-1) (le_refl _) (by omega)

/-- Witness for C4's amended theorem at a timed-out run with partial
stdout. -/
theorem callCliAgent_abort_behavior_witness :
    (callCliAgent (.threw true "x") = .error (.threw true "x") ↔ "x" = "") ∧
    (callCliAgent (.threw true "x") = .ok "x" ↔ "x" ≠ "") :=
  callCliAgent_abort_behavior true "x"

/-- Witness for C8 at a host where only `gemini` is installed. -/
theorem cli_agents_check_total_witness :
    (cliAgentsCheckRoute fun n => if n = "gemini" then .ok () else .error ()).1 = 200 ∧
    (cliAgentsCheckRoute fun n => if n = "gemini" then .ok () else .error ()).2 =
      CLI_AGENTS.map (fun n =>
        (n, checkCliInstalled (fun n => if n = "gemini" then .ok () else .error ()) n)) ∧
    ((cliAgentsCheckRoute fun n => if n = "gemini" then .ok () else .error ()).2.map Prod.fst =
      ["gemini", "claude", "codex", "qwen"]) ∧
    ∀ n, (if n = "gemini" then Except.ok () else Except.error ()) = .error () →
      checkCliInstalled (fun n => if n = "gemini" then .ok () else .error ()) n = false :=
  cli_agents_check_total fun n => if n = "gemini" then .ok () else .error ()
